import Mathlib

/-!
# Verification of the advanced behavioral metrics engine

Shallow embedding of `backend/advanced_metrics.py` (class
`AdvancedMetricsCalculator`) and proofs about it.

Modelling conventions:
* Timestamps are whole seconds, modelled as natural numbers.  `0` plays the
  role of `datetime.min` (the default used when an event lacks a timestamp
  during sorting and for error times) and the constant `dtMax` plays the role
  of `datetime.max` (the default used for missing resolution / exploration
  timestamps).  A missing `timestamp` key is `Option.none`.
* Python floats are modelled as real numbers; purely structural counts stay
  in `Nat`/`Int`/`Rat` so that they evaluate.
* An event is the triple of its `type` entry, its `timestamp` entry and the
  `query` entry of its `metadata` dict (the only metadata key the engine
  reads); a missing key is `none`.
* `str.upper` / `str.lower` act per character; on the ASCII SQL/prompt text
  the engine handles this agrees with `Char.toUpper` / `Char.toLower`.
-/

namespace AdvancedMetrics

/-- An event record `{type, timestamp, metadata}`; `metadata_query` is
`metadata.get('query')` (`none` when either the metadata dict or the key is
missing). -/
structure Event where
  type : Option String
  timestamp : Option Nat
  metadata_query : Option String
deriving DecidableEq

/-- An AI interaction record; only `user_prompt` is read by the engine. -/
structure AIInteraction where
  user_prompt : Option String
deriving DecidableEq

/-- The `AIUsageIntent` enum. -/
inductive AIUsageIntent
  | conceptual_help
  | hint_request
  | debug_assistance
  | code_generation
  | validation
  | explanation
deriving DecidableEq

/-- The `ConfidenceMetric` dataclass. -/
structure ConfidenceMetric where
  value : ℝ
  confidence : ℝ
  sample_size : ℕ
  interpretation : String

/-- Model of `datetime.max` in seconds (any value larger than every timestamp
occurring in real event streams; its exact size is irrelevant). -/
def dtMax : ℕ := 315537897600

/-- `e.get('type') in ts` — a missing type never matches. -/
def typeIs (e : Event) (ts : List String) : Bool :=
  match e.type with
  | some t => ts.contains t
  | none => false

/-- `sorted(events, key=lambda e: e.get('timestamp', datetime.min))`
(Python's sort is stable, as is `mergeSort`). -/
def sortEvents (events : List Event) : List Event :=
  events.mergeSort (fun a b => decide (a.timestamp.getD 0 ≤ b.timestamp.getD 0))

/-- `self.event_counts.get(t, 0)` where `_count_events` buckets events by
`e.get('type', 'UNKNOWN')`. -/
def countType (events : List Event) (t : String) : ℕ :=
  (events.filter (fun e => e.type.getD "UNKNOWN" == t)).length

/-- `_confidence_from_sample_size`: `0.0` at zero samples, otherwise the
logistic curve `1/(1+exp(-k(n-mid)))` with `k = 6/optimal_size`,
`mid = optimal_size/2`, clamped by `min(1.0, ·)`. -/
noncomputable def confidenceFromSampleSize (sampleSize : ℕ) (optimalSize : ℕ) : ℝ :=
  if sampleSize = 0 then 0
  else
    min 1 (1 / (1 + Real.exp (-(6 / (optimalSize : ℝ)) *
      ((sampleSize : ℝ) - (optimalSize : ℝ) / 2))))

/-- The explore-event types counted by `calculate_exploration_score`. -/
def explorationTypes : List String :=
  ["SCHEMA_EXPLORED", "TABLE_PREVIEWED", "DATA_QUALITY_CHECKED"]

/-- `calculate_exploration_score`, over the sorted event stream
(`self.events`).  When the first `SQL_RUN` event lacks a timestamp the
Python code would raise a `KeyError`; here that (crashing) case is folded
into the unweighted branch — no theorem below touches it. -/
noncomputable def calculate_exploration_score (events : List Event)
    (problem_difficulty : ℝ) : ConfidenceMetric :=
  let explorationEvents := events.filter (fun e => typeIs e explorationTypes)
  let sqlRuns := countType events "SQL_RUN"
  if sqlRuns = 0 then ⟨0, 0, 0, "no_sql_activity"⟩
  else
    let firstSqlTime : Option Nat :=
      (events.find? (fun e => e.type == some "SQL_RUN")).bind (fun e => e.timestamp)
    let weighted : ℝ :=
      if explorationEvents ≠ [] ∧ events ≠ [] then
        match firstSqlTime with
        | some t =>
          let early :=
            (explorationEvents.filter (fun e => e.timestamp.getD dtMax < t)).length
          (early : ℝ) * 1.5 + ((explorationEvents.length : ℝ) - (early : ℝ))
        | none => (explorationEvents.length : ℝ)
      else (explorationEvents.length : ℝ)
    let score := (weighted / (sqlRuns : ℝ)) / problem_difficulty
    let total := sqlRuns + explorationEvents.length
    let conf := confidenceFromSampleSize total 15
    let interp :=
      if score > 0.4 then "data_first_approach"
      else if score > 0.15 then "some_exploration"
      else "query_first_approach"
    ⟨min score 2, conf, total, interp⟩

/-- The iteration-event types counted by `calculate_iteration_quality`. -/
def iterationTypes : List String :=
  ["QUERY_MODIFIED", "APPROACH_CHANGED", "BACKTRACKED", "VALIDATION_ATTEMPT"]

/-- The superficial-iteration filter loop.  `last` is `last_time`, which the
Python loop reassigns on EVERY event (kept or dropped); an event is kept when
either endpoint timestamp is missing (`if last_time and timestamp`) or when
the gap to the immediately preceding event exceeds 10 seconds. -/
def meaningfulAux : List Event → Option Nat → List Event
  | [], _ => []
  | e :: rest, last =>
    match last, e.timestamp with
    | some lt, some t =>
      if ((t : ℤ) - (lt : ℤ)) > 10 then e :: meaningfulAux rest e.timestamp
      else meaningfulAux rest e.timestamp
    | _, _ => e :: meaningfulAux rest e.timestamp

/-- The list `meaningful_iterations` built by `calculate_iteration_quality`. -/
def meaningfulIterations (l : List Event) : List Event := meaningfulAux l none

/-- `calculate_iteration_quality`, over the sorted event stream. -/
noncomputable def calculate_iteration_quality (events : List Event) : ConfidenceMetric :=
  let iterationEvents := events.filter (fun e => typeIs e iterationTypes)
  let sqlRuns := max (countType events "SQL_RUN") 1
  let meaningful := meaningfulIterations iterationEvents
  let score : ℝ := (meaningful.length : ℝ) / (sqlRuns : ℝ)
  let conf := confidenceFromSampleSize sqlRuns 10
  let interp :=
    if score > 0.35 then "iterative_refiner"
    else if score > 0.1 then "some_iteration"
    else "one_shot_attempts"
  ⟨min score 2, conf, meaningful.length, interp⟩

/-- The inner resolution-matching loop of `calculate_debug_effectiveness`:
some resolution event (timestamp defaulting to `datetime.max`) lies strictly
inside `(errorTime, errorTime + 5 min)`. -/
def resolvedWithin (resolutions : List Event) (errorTime : ℕ) : Bool :=
  resolutions.any (fun r =>
    decide (errorTime < r.timestamp.getD dtMax) &&
    decide (r.timestamp.getD dtMax < errorTime + 300))

/-- `calculate_debug_effectiveness`, over the sorted event stream. -/
noncomputable def calculate_debug_effectiveness (events : List Event) : ConfidenceMetric :=
  let errors := events.filter (fun e => e.type == some "ERROR_OCCURRED")
  let resolutions := events.filter (fun e => e.type == some "ERROR_RESOLVED")
  if errors = [] then ⟨1, 0, 0, "no_errors_encountered"⟩
  else
    let resolvedCount :=
      errors.countP (fun err => resolvedWithin resolutions (err.timestamp.getD 0))
    let score : ℝ := (resolvedCount : ℝ) / (errors.length : ℝ)
    let conf := confidenceFromSampleSize errors.length 8
    let interp :=
      if score > 0.65 then "strong_debugger"
      else if score > 0.35 then "moderate_debugging"
      else "struggles_with_errors"
    ⟨score, conf, errors.length, interp⟩

/-- Substring test on character lists (`word in prompt` for Python `str`). -/
def isInfixChars (pat : List Char) : List Char → Bool
  | [] => pat.isEmpty
  | c :: rest => pat.isPrefixOf (c :: rest) || isInfixChars pat rest

/-- `any(word in p for word in words)`. -/
def anyKeyword (words : List String) (p : List Char) : Bool :=
  words.any (fun w => isInfixChars w.data p)

def hintKeywords : List String := ["hint", "clue", "guide", "approach"]

def debugKeywords : List String := ["error", "bug", "wrong", "fix", "debug"]

def explanationKeywords : List String := ["explain", "what is", "how does", "why"]

def codeGenKeywords : List String := ["write", "code", "query", "generate", "create"]

def validationKeywords : List String := ["correct", "right", "check", "validate", "verify"]

/-- The per-prompt keyword classification inside `classify_ai_interactions`:
the prompt is lower-cased and the five keyword groups are tried in fixed order,
first match wins, defaulting to `CONCEPTUAL_HELP`. -/
def classifyPrompt (prompt : String) : AIUsageIntent :=
  let p := prompt.data.map Char.toLower
  if anyKeyword hintKeywords p then .hint_request
  else if anyKeyword debugKeywords p then .debug_assistance
  else if anyKeyword explanationKeywords p then .explanation
  else if anyKeyword codeGenKeywords p then .code_generation
  else if anyKeyword validationKeywords p then .validation
  else .conceptual_help

/-- One entry of the dict returned by `classify_ai_interactions` (prompts
default to `''` via `interaction.get('user_prompt', '')`). -/
def classifyCount (inters : List AIInteraction) (intent : AIUsageIntent) : ℕ :=
  (inters.filter (fun i => classifyPrompt (i.user_prompt.getD "") == intent)).length

/-- `calculate_ai_reliance`. -/
noncomputable def calculate_ai_reliance (inters : List AIInteraction) : ConfidenceMetric :=
  if inters = [] then ⟨0, 1, 0, "no_ai_usage"⟩
  else
    let n := inters.length
    let w : ℝ :=
      (classifyCount inters .code_generation : ℝ) * 1 +
      (classifyCount inters .debug_assistance : ℝ) * 0.7 +
      (classifyCount inters .conceptual_help : ℝ) * 0.5 +
      (classifyCount inters .hint_request : ℝ) * 0.3 +
      (classifyCount inters .validation : ℝ) * 0.2 +
      (classifyCount inters .explanation : ℝ) * 0.4
    let score := w / (n : ℝ)
    let conf := confidenceFromSampleSize n 10
    let interp :=
      if score < 0.25 then "strategic_ai_usage"
      else if score < 0.6 then "moderate_ai_reliance"
      else "high_ai_dependency"
    ⟨score, conf, n, interp⟩

/-- `calculate_ai_collaboration_quality`, over the sorted event stream. -/
noncomputable def calculate_ai_collaboration_quality (events : List Event) : ConfidenceMetric :=
  let used := countType events "AI_RESPONSE_USED"
  let modified := countType events "AI_CODE_MODIFIED"
  let copied := countType events "AI_CODE_COPIED"
  if used = 0 then ⟨0, 0, 0, "no_ai_code_usage"⟩
  else
    let modificationRate : ℝ := (modified : ℝ) / (used : ℝ)
    let copyPenalty : ℝ := ((copied : ℝ) / (used : ℝ)) * 0.5
    let score := max 0 (modificationRate - copyPenalty)
    let conf := confidenceFromSampleSize used 8
    let interp :=
      if score > 0.6 then "thoughtful_ai_collaboration"
      else if score > 0.3 then "some_modification"
      else "passive_ai_copying"
    ⟨score, conf, used, interp⟩

/-- Python regex `\w` (ASCII range): letters, digits, underscore. -/
def isWordChar (c : Char) : Bool := c.isAlphanum || c == '_'

/-- A word boundary `\b` holds before the current position (patterns below all
start with a word character). -/
def prevNonWord : Option Char → Bool
  | none => true
  | some c => !isWordChar c

/-- A word boundary `\b` holds after the previous position (patterns below all
end with a word character). -/
def headNonWord : List Char → Bool
  | [] => true
  | c :: _ => !isWordChar c

/-- Length of the leading whitespace run (`\s*` / `\s+`, maximal munch). -/
def wsRun : List Char → ℕ
  | [] => 0
  | c :: rest => if c.isWhitespace then wsRun rest + 1 else 0

/-- Length of the leading word-character run (`\w+`, maximal munch). -/
def wordRun : List Char → ℕ
  | [] => 0
  | c :: rest => if isWordChar c then wordRun rest + 1 else 0

/-- Match `\bJOIN\b` at the current position; returns the matched length. -/
def joinMatchLen (prev : Option Char) (l : List Char) : Option ℕ :=
  if prevNonWord prev && "JOIN".data.isPrefixOf l && headNonWord (l.drop 4) then
    some 4
  else none

/-- Match `NAME\s*\(` at the current position (the tail of the aggregation and
window-function patterns). -/
def nameParenLen (name : List Char) (l : List Char) : Option ℕ :=
  if name.isPrefixOf l then
    let rest := l.drop name.length
    let k := wsRun rest
    match rest.drop k with
    | '(' :: _ => some (name.length + k + 1)
    | _ => none
  else none

/-- Match `\b(COUNT|SUM|AVG|MIN|MAX|STDDEV|VARIANCE)\s*\(`: alternatives are
tried in the regex's order (no alternative is a prefix of another, so the
choice is in fact unique). -/
def aggMatchLen (prev : Option Char) (l : List Char) : Option ℕ :=
  if prevNonWord prev then
    (["COUNT", "SUM", "AVG", "MIN", "MAX", "STDDEV", "VARIANCE"]).findSome?
      (fun n => nameParenLen n.data l)
  else none

/-- Match `\bOVER\s*\(`. -/
def overMatchLen (prev : Option Char) (l : List Char) : Option ℕ :=
  if prevNonWord prev then nameParenLen "OVER".data l else none

/-- Match `\bWITH\s+\w+\s+AS`.  The character classes of adjacent pieces are
disjoint, so greedy maximal-munch matching coincides with the regex engine's
backtracking search. -/
def cteMatchLen (prev : Option Char) (l : List Char) : Option ℕ :=
  if prevNonWord prev && "WITH".data.isPrefixOf l then
    let r1 := l.drop 4
    let k1 := wsRun r1
    if k1 = 0 then none
    else
      let r2 := r1.drop k1
      let k2 := wordRun r2
      if k2 = 0 then none
      else
        let r3 := r2.drop k2
        let k3 := wsRun r3
        if k3 = 0 then none
        else if "AS".data.isPrefixOf (r3.drop k3) then some (4 + k1 + k2 + k3 + 2)
        else none
  else none

/-- `len(re.findall(pattern, text))`: scan left to right, counting
non-overlapping matches and resuming right after each match.  The fuel
argument (initially the text length) only forces structural termination —
every step consumes at least one character. -/
def scanCountAux (f : Option Char → List Char → Option ℕ) :
    ℕ → Option Char → List Char → ℕ
  | 0, _, _ => 0
  | _ + 1, _, [] => 0
  | fuel + 1, prev, c :: rest =>
    match f prev (c :: rest) with
    | some n =>
      1 + scanCountAux f fuel (((c :: rest).take n).getLast?) (rest.drop (n - 1))
    | none => scanCountAux f fuel (some c) rest

/-- Count of matches of the pattern recognised by `f` in `l`. -/
def scanCount (f : Option Char → List Char → Option ℕ) (l : List Char) : ℕ :=
  scanCountAux f l.length none l

/-- The parenthesis-depth scan of `analyze_sql_structure`: running depth
(`+1` on `(`, `-1` on `)`, never validated) and the maximum depth reached,
recorded only when an opening parenthesis is seen. -/
def maxNestingAux : List Char → ℤ → ℤ → ℤ
  | [], _, m => m
  | c :: rest, d, m =>
    if c = '(' then maxNestingAux rest (d + 1) (max m (d + 1))
    else if c = ')' then maxNestingAux rest (d - 1) m
    else maxNestingAux rest d m

/-- The dict returned by `analyze_sql_structure`. -/
structure SqlStructure where
  complexity_score : ℚ
  category : String
  join_depth : ℕ
  nesting_level : ℤ
  cte_count : ℕ
  aggregations : ℕ
  window_functions : ℕ
deriving DecidableEq

/-- `analyze_sql_structure`: pattern counts over the upper-cased query text,
combined into the weighted complexity score and thresholded into a
category. -/
def analyze_sql_structure (query : String) : SqlStructure :=
  let q := query.data.map Char.toUpper
  let joins := scanCount joinMatchLen q
  let nesting := maxNestingAux q 0 0
  let ctes := scanCount cteMatchLen q
  let aggs := scanCount aggMatchLen q
  let wins := scanCount overMatchLen q
  let complexity : ℚ :=
    (joins : ℚ) * 2 + (nesting : ℚ) * 3 + (ctes : ℚ) * 4 +
      (aggs : ℚ) * (3 / 2) + (wins : ℚ) * 5
  let category :=
    if complexity ≥ 20 then "expert"
    else if complexity ≥ 10 then "advanced"
    else if complexity ≥ 5 then "intermediate"
    else "basic"
  ⟨complexity, category, joins, nesting, ctes, aggs, wins⟩

/-- `categories.count(c)`. -/
def countCat (cats : List String) (c : String) : ℕ :=
  (cats.filter (fun x => x == c)).length

/-- Fold behind `modeCategory`: keep the current best, replacing it only on a
strictly larger count (as Python's `max` does over its iteration order). -/
def modeAux (cats : List String) : List String → String → ℕ → String
  | [], best, _ => best
  | c :: rest, best, bestCount =>
    if countCat cats c > bestCount then modeAux cats rest c (countCat cats c)
    else modeAux cats rest best bestCount

/-- `max(set(categories), key=categories.count)`.  CPython's iteration order
over a set is unspecified (flagged in the spec as an open question); this
model fixes it to first-occurrence order, which no theorem below depends
on. -/
def modeCategory (cats : List String) : String :=
  match cats.dedup with
  | [] => ""
  | c :: rest => modeAux cats rest c (countCat cats c)

/-- `calculate_sql_complexity`. -/
noncomputable def calculate_sql_complexity (queries : List String) : ConfidenceMetric :=
  if queries = [] then ⟨0, 0, 0, "no_queries"⟩
  else
    let analyses := queries.map analyze_sql_structure
    let avg : ℚ := (analyses.map (fun a => a.complexity_score)).sum / (analyses.length : ℚ)
    let normalized : ℚ := min 4 (avg / 5)
    let conf := confidenceFromSampleSize queries.length 10
    let categories := analyses.map (fun a => a.category)
    ⟨(normalized : ℝ), conf, queries.length, modeCategory categories⟩

/-- The `SequencePattern` dataclass.  The code reads `event['timestamp']`
directly when building a pattern (raising on a missing key); the model keeps
the optional value instead — every theorem below uses timestamped events. -/
structure SequencePattern where
  pattern_type : String
  events : List String
  timestamp_range : Option ℕ × Option ℕ
  quality_score : ℚ
deriving DecidableEq

/-- The explore-event types that may START a data-driven pair in
`detect_thinking_sequences` (note: a strict subset of `explorationTypes`). -/
def detectorExploreTypes : List String := ["SCHEMA_EXPLORED", "TABLE_PREVIEWED"]

/-- The `explore_then_sql` pair list: for each explore-type event, the first
`SQL_RUN` among the next 5 events, if any. -/
def exploreSqlPairs : List Event → List (Event × Event)
  | [] => []
  | e :: rest =>
    (if typeIs e detectorExploreTypes then
      match (rest.take 5).find? (fun x => x.type == some "SQL_RUN") with
      | some s => [(e, s)]
      | none => []
    else []) ++ exploreSqlPairs rest

/-- The dependency-loop scan: every position where three consecutive events
are `ERROR_OCCURRED`, `AI_PROMPT`, `ERROR_OCCURRED` contributes the (first,
third) event pair. -/
def aiLoops : List Event → List (Event × Event)
  | e1 :: e2 :: e3 :: rest =>
    (if e1.type == some "ERROR_OCCURRED" && e2.type == some "AI_PROMPT" &&
        e3.type == some "ERROR_OCCURRED" then
      [(e1, e3)]
    else []) ++ aiLoops (e2 :: e3 :: rest)
  | _ => []

/-- The `ai_dependency_loop` record appended for one error→AI→error triple
(quality `0.2 = 1/5`). -/
def mkLoopPattern (pr : Event × Event) : SequencePattern :=
  ⟨"ai_dependency_loop", ["ERROR", "AI", "ERROR"],
    (pr.1.timestamp, pr.2.timestamp), 1 / 5⟩

/-- `detect_thinking_sequences`, over the sorted event stream: one summary
`data_driven_approach` record when any explore→SQL pair exists (spanning the
first pair's explore timestamp to the last pair's SQL timestamp), and one
`ai_dependency_loop` record per error→AI→error triple. -/
def detect_thinking_sequences (events : List Event) : List SequencePattern :=
  let pairs := exploreSqlPairs events
  let dataDriven : List SequencePattern :=
    match pairs with
    | [] => []
    | p :: ps =>
      [⟨"data_driven_approach", ["EXPLORE", "SQL"],
        (p.1.timestamp, ((p :: ps).getLast (List.cons_ne_nil p ps)).2.timestamp), 1⟩]
  dataDriven ++ (aiLoops events).map mkLoopPattern

/-- The dict returned by `calculate_all_metrics`. -/
structure MetricsReport where
  exploration : ConfidenceMetric
  iteration : ConfidenceMetric
  debugging : ConfidenceMetric
  ai_reliance : ConfidenceMetric
  ai_collaboration : ConfidenceMetric
  sql_complexity : ConfidenceMetric
  independence : ConfidenceMetric
  thinking_sequences : List SequencePattern
  ai_intent_breakdown : AIUsageIntent → ℕ
  problem_difficulty : ℝ
  overall_confidence : ℝ

/-- `calculate_all_metrics`: sorts the events once (as `__init__` does), runs
every calculator, extracts SQL query texts from `SQL_RUN` metadata, derives
independence from ai_reliance, and averages exactly five confidences
(collaboration's is excluded). -/
noncomputable def calculate_all_metrics (events : List Event)
    (inters : List AIInteraction) (problem_difficulty : ℝ) : MetricsReport :=
  let evs := sortEvents events
  let exploration := calculate_exploration_score evs problem_difficulty
  let iteration := calculate_iteration_quality evs
  let debugging := calculate_debug_effectiveness evs
  let ai_reliance := calculate_ai_reliance inters
  let ai_collab := calculate_ai_collaboration_quality evs
  let queries := evs.filterMap (fun e =>
    if e.type == some "SQL_RUN" && !(e.metadata_query.getD "" == "") then
      some (e.metadata_query.getD "")
    else none)
  let sql_complexity := calculate_sql_complexity queries
  let sequences := detect_thinking_sequences evs
  let independence : ConfidenceMetric :=
    ⟨1 - ai_reliance.value, ai_reliance.confidence, ai_reliance.sample_size,
      if ai_reliance.value < 0.4 then "independent"
      else if ai_reliance.value < 0.7 then "collaborative"
      else "dependent"⟩
  ⟨exploration, iteration, debugging, ai_reliance, ai_collab, sql_complexity,
    independence, sequences, fun i => classifyCount inters i, problem_difficulty,
    (exploration.confidence + iteration.confidence + debugging.confidence +
      ai_reliance.confidence + sql_complexity.confidence) / 5⟩

/-- The iteration filter as claim C3 words it (spec-side definition, for
comparison only): an event is dropped only when its timestamp is less than
10 seconds after the previously KEPT event's timestamp. -/
def claimKeptAux : List Event → Option Nat → List Event
  | [], _ => []
  | e :: rest, last =>
    match last, e.timestamp with
    | some lt, some t =>
      if (t : ℤ) - (lt : ℤ) < 10 then claimKeptAux rest (some lt)
      else e :: claimKeptAux rest (some t)
    | _, _ => e :: claimKeptAux rest e.timestamp

/-- Spec-side filter of claim C3 (compare `meaningfulIterations`). -/
def claimKeptIterations (l : List Event) : List Event := claimKeptAux l none

/-- The rule the code actually implements, phrased declaratively: keep the
head, and keep a later event iff its timestamp exceeds the immediately
preceding event's timestamp (kept or dropped) by more than 10 seconds. -/
def prevGapAux (p : Event) : List Event → List Event
  | [] => []
  | e :: rest =>
    if (e.timestamp.getD 0 : ℤ) - (p.timestamp.getD 0 : ℤ) > 10 then
      e :: prevGapAux e rest
    else prevGapAux e rest

/-- Declarative form of the implemented filter. -/
def prevGapFilter : List Event → List Event
  | [] => []
  | e :: rest => e :: prevGapAux e rest

/-- Position `i` starts an error→AI→error triple (the guard of the
dependency-loop scan, index-adjacent, not time-windowed). -/
def tripleAt (evs : List Event) (i : ℕ) : Bool :=
  (evs.get? i).bind Event.type == some "ERROR_OCCURRED" &&
  (evs.get? (i + 1)).bind Event.type == some "AI_PROMPT" &&
  (evs.get? (i + 2)).bind Event.type == some "ERROR_OCCURRED"

/-! ## Shared helper lemmas -/

/-- Every interaction is classified into exactly one intent, so the six
per-intent counts partition the interaction list. -/
theorem classifyCount_partition (inters : List AIInteraction) :
    classifyCount inters .hint_request + classifyCount inters .debug_assistance +
      classifyCount inters .explanation + classifyCount inters .code_generation +
      classifyCount inters .validation + classifyCount inters .conceptual_help =
      inters.length := by
  induction inters with
  | nil => rfl
  | cons a l ih =>
    simp only [classifyCount, List.filter_cons, List.length_cons] at *
    cases h : classifyPrompt (a.user_prompt.getD "") <;> simp [h] <;> omega

/-- The logistic value is strictly positive. -/
theorem logistic_pos (x : ℝ) : 0 < 1 / (1 + Real.exp x) := by
  have h := Real.exp_pos x
  positivity

/-- The logistic value is below `1`, so the `min(1.0, ·)` clamp is vacuous. -/
theorem min_one_logistic (x : ℝ) :
    min 1 (1 / (1 + Real.exp x)) = 1 / (1 + Real.exp x) := by
  have h := Real.exp_pos x
  have h1 : (0 : ℝ) < 1 + Real.exp x := by linarith
  have : 1 / (1 + Real.exp x) ≤ 1 := by
    rw [div_le_one h1]
    linarith
  exact min_eq_right this

/-- `confidenceFromSampleSize` is nonnegative. -/
theorem confidence_nonneg (n opt : ℕ) : 0 ≤ confidenceFromSampleSize n opt := by
  unfold confidenceFromSampleSize
  split
  · exact le_refl 0
  · exact le_min (by norm_num) (logistic_pos _).le

/-- `confidenceFromSampleSize` is at most `1`. -/
theorem confidence_le_one (n opt : ℕ) : confidenceFromSampleSize n opt ≤ 1 := by
  unfold confidenceFromSampleSize
  split
  · norm_num
  · exact min_le_left _ _

/-! ## Claim theorems -/

/-- C9.  Independence is derived, never independently calculated: its value is
exactly `1 − ai_reliance.value`, and it inherits ai_reliance's confidence and
sample size, for every input. -/
theorem C9_independence_derived (events : List Event) (inters : List AIInteraction)
    (d : ℝ) :
    (calculate_all_metrics events inters d).independence.value =
        1 - (calculate_all_metrics events inters d).ai_reliance.value ∧
      (calculate_all_metrics events inters d).independence.confidence =
        (calculate_all_metrics events inters d).ai_reliance.confidence ∧
      (calculate_all_metrics events inters d).independence.sample_size =
        (calculate_all_metrics events inters d).ai_reliance.sample_size :=
  ⟨rfl, rfl, rfl⟩

/-- C7.  The analyzer's intent classifier is total (it is a Lean function into
the six-label enum) and first-match-wins in the fixed priority order
hint → debug → explanation → code-generation → validation → else conceptual,
matching on lower-cased keyword substrings; in particular a prompt matching a
hint keyword is `HINT_REQUEST` no matter what else it matches, and the six
per-label counts of `classify_ai_interactions` sum to the number of
interactions. -/
theorem C7_intent_classifier_total_priority :
    (∀ p : String, anyKeyword hintKeywords (p.data.map Char.toLower) = true →
        classifyPrompt p = .hint_request) ∧
    (∀ p : String, anyKeyword hintKeywords (p.data.map Char.toLower) = false →
        anyKeyword debugKeywords (p.data.map Char.toLower) = true →
        classifyPrompt p = .debug_assistance) ∧
    (∀ p : String, anyKeyword hintKeywords (p.data.map Char.toLower) = false →
        anyKeyword debugKeywords (p.data.map Char.toLower) = false →
        anyKeyword explanationKeywords (p.data.map Char.toLower) = true →
        classifyPrompt p = .explanation) ∧
    (∀ p : String, anyKeyword hintKeywords (p.data.map Char.toLower) = false →
        anyKeyword debugKeywords (p.data.map Char.toLower) = false →
        anyKeyword explanationKeywords (p.data.map Char.toLower) = false →
        anyKeyword codeGenKeywords (p.data.map Char.toLower) = true →
        classifyPrompt p = .code_generation) ∧
    (∀ p : String, anyKeyword hintKeywords (p.data.map Char.toLower) = false →
        anyKeyword debugKeywords (p.data.map Char.toLower) = false →
        anyKeyword explanationKeywords (p.data.map Char.toLower) = false →
        anyKeyword codeGenKeywords (p.data.map Char.toLower) = false →
        anyKeyword validationKeywords (p.data.map Char.toLower) = true →
        classifyPrompt p = .validation) ∧
    (∀ p : String, anyKeyword hintKeywords (p.data.map Char.toLower) = false →
        anyKeyword debugKeywords (p.data.map Char.toLower) = false →
        anyKeyword explanationKeywords (p.data.map Char.toLower) = false →
        anyKeyword codeGenKeywords (p.data.map Char.toLower) = false →
        anyKeyword validationKeywords (p.data.map Char.toLower) = false →
        classifyPrompt p = .conceptual_help) ∧
    (∀ inters : List AIInteraction,
        classifyCount inters .hint_request + classifyCount inters .debug_assistance +
          classifyCount inters .explanation + classifyCount inters .code_generation +
          classifyCount inters .validation + classifyCount inters .conceptual_help =
          inters.length) := by
  refine ⟨?_, ?_, ?_, ?_, ?_, ?_, classifyCount_partition⟩
  · intro p h1
    simp [classifyPrompt, h1]
  · intro p h1 h2
    simp [classifyPrompt, h1, h2]
  · intro p h1 h2 h3
    simp [classifyPrompt, h1, h2, h3]
  · intro p h1 h2 h3 h4
    simp [classifyPrompt, h1, h2, h3, h4]
  · intro p h1 h2 h3 h4 h5
    simp [classifyPrompt, h1, h2, h3, h4, h5]
  · intro p h1 h2 h3 h4 h5
    simp [classifyPrompt, h1, h2, h3, h4, h5]

/-- Witness for C7: "hint: i got an error" contains a hint keyword and a debug
keyword, and is classified `HINT_REQUEST`. -/
theorem C7_intent_classifier_total_priority_witness :
    anyKeyword hintKeywords ((String.data "hint: i got an error").map Char.toLower) = true ∧
      anyKeyword debugKeywords ((String.data "hint: i got an error").map Char.toLower) = true ∧
      classifyPrompt "hint: i got an error" = .hint_request :=
  ⟨by decide, by decide,
    C7_intent_classifier_total_priority.1 "hint: i got an error" (by decide)⟩

/-- Every recorded explore→SQL pair starts at an event passing the detector's
explore-type test. -/
theorem mem_exploreSqlPairs {evs : List Event} {pr : Event × Event}
    (h : pr ∈ exploreSqlPairs evs) : typeIs pr.1 detectorExploreTypes = true := by
  induction evs with
  | nil => simp [exploreSqlPairs] at h
  | cons e rest ih =>
    simp only [exploreSqlPairs, List.mem_append] at h
    rcases h with h | h
    · split at h
      · split at h
        · simp only [List.mem_singleton] at h
          subst h
          assumption
        · simp at h
      · simp at h
    · exact ih h

/-- C10.  A data-driven pair can only start at a `SCHEMA_EXPLORED` or
`TABLE_PREVIEWED` event — never at `DATA_QUALITY_CHECKED` — although the
exploration calculator counts `DATA_QUALITY_CHECKED` too: the detector's
explore-type set is a strict subset of the exploration calculator's. -/
theorem C10_detector_explore_strict_subset :
    (∀ (evs : List Event), ∀ pr ∈ exploreSqlPairs evs,
        (pr.1.type = some "SCHEMA_EXPLORED" ∨ pr.1.type = some "TABLE_PREVIEWED") ∧
          pr.1.type ≠ some "DATA_QUALITY_CHECKED") ∧
    (∀ e : Event, typeIs e detectorExploreTypes = true →
        typeIs e explorationTypes = true) ∧
    (∀ e : Event, e.type = some "DATA_QUALITY_CHECKED" →
        typeIs e explorationTypes = true ∧ typeIs e detectorExploreTypes = false) := by
  refine ⟨?_, ?_, ?_⟩
  · intro evs pr h
    have ht := mem_exploreSqlPairs h
    unfold typeIs at ht
    cases hty : pr.1.type with
    | none => rw [hty] at ht; simp at ht
    | some t =>
      rw [hty] at ht
      simp only [detectorExploreTypes] at ht
      simp at ht
      rcases ht with ht | ht
      · subst ht
        exact ⟨Or.inl rfl, by simp⟩
      · subst ht
        exact ⟨Or.inr rfl, by simp⟩
  · intro e h
    cases hty : e.type with
    | none => simp [typeIs, hty] at h
    | some t =>
      simp only [typeIs, hty, detectorExploreTypes, explorationTypes] at h ⊢
      simp at h ⊢
      tauto
  · intro e h
    simp [typeIs, h, explorationTypes, detectorExploreTypes]

/-- Witness for C10: in the stream `[SCHEMA_EXPLORED@0, SQL_RUN@5]` the single
pair starts at the `SCHEMA_EXPLORED` event, and `DATA_QUALITY_CHECKED` is an
exploration-calculator type but not a detector type. -/
theorem C10_detector_explore_strict_subset_witness :
    (((⟨some "SCHEMA_EXPLORED", some 0, none⟩ : Event),
        (⟨some "SQL_RUN", some 5, none⟩ : Event)).1.type = some "SCHEMA_EXPLORED" ∨
      ((⟨some "SCHEMA_EXPLORED", some 0, none⟩ : Event),
        (⟨some "SQL_RUN", some 5, none⟩ : Event)).1.type = some "TABLE_PREVIEWED") ∧
      ((⟨some "SCHEMA_EXPLORED", some 0, none⟩ : Event),
        (⟨some "SQL_RUN", some 5, none⟩ : Event)).1.type ≠ some "DATA_QUALITY_CHECKED" :=
  C10_detector_explore_strict_subset.1
    [⟨some "SCHEMA_EXPLORED", some 0, none⟩, ⟨some "SQL_RUN", some 5, none⟩]
    (⟨some "SCHEMA_EXPLORED", some 0, none⟩, ⟨some "SQL_RUN", some 5, none⟩)
    (by decide)

/-- C4.  For every `optimal_size > 0`, `_confidence_from_sample_size` is `0`
at `n = 0`, non-decreasing in `n`, bounded in `[0,1]`, and equals `1/2`
whenever `n = optimal_size/2` (i.e. `2·n = optimal_size`). -/
theorem C4_confidence_properties (opt : ℕ) (hopt : 0 < opt) :
    confidenceFromSampleSize 0 opt = 0 ∧
    (∀ m n : ℕ, m ≤ n →
        confidenceFromSampleSize m opt ≤ confidenceFromSampleSize n opt) ∧
    (∀ n : ℕ, 0 ≤ confidenceFromSampleSize n opt ∧
        confidenceFromSampleSize n opt ≤ 1) ∧
    (∀ n : ℕ, 2 * n = opt → confidenceFromSampleSize n opt = 1 / 2) := by
  have hoptR : (0:ℝ) < (opt:ℝ) := by exact_mod_cast hopt
  refine ⟨rfl, ?_, fun n => ⟨confidence_nonneg n opt, confidence_le_one n opt⟩, ?_⟩
  · intro m n hmn
    rcases Nat.eq_zero_or_pos m with hm | hm
    · subst hm
      rw [show confidenceFromSampleSize 0 opt = 0 from rfl]
      exact confidence_nonneg n opt
    · have hn : 0 < n := lt_of_lt_of_le hm hmn
      unfold confidenceFromSampleSize
      rw [if_neg (Nat.pos_iff_ne_zero.mp hm), if_neg (Nat.pos_iff_ne_zero.mp hn)]
      apply min_le_min le_rfl
      have hk : (0:ℝ) < 6 / (opt:ℝ) := by positivity
      have harg : -(6 / (opt:ℝ)) * ((n:ℝ) - (opt:ℝ)/2) ≤
          -(6 / (opt:ℝ)) * ((m:ℝ) - (opt:ℝ)/2) := by
        have hmnR : (m:ℝ) ≤ (n:ℝ) := by exact_mod_cast hmn
        nlinarith
      have hexp := Real.exp_le_exp.mpr harg
      have hpos : (0:ℝ) < 1 + Real.exp (-(6 / (opt:ℝ)) * ((n:ℝ) - (opt:ℝ)/2)) := by
        positivity
      apply one_div_le_one_div_of_le hpos
      linarith
  · intro n h2n
    have hn0 : n ≠ 0 := by omega
    unfold confidenceFromSampleSize
    rw [if_neg hn0]
    have hoptn : (opt:ℝ) = 2 * (n:ℝ) := by exact_mod_cast h2n.symm
    rw [hoptn]
    have harg : ((n:ℝ) - 2 * (n:ℝ) / 2) = 0 := by ring
    rw [harg, mul_zero, Real.exp_zero]
    norm_num

/-- Witness for C4: all four properties at `optimal_size = 20`. -/
theorem C4_confidence_properties_witness :
    0 < 20 ∧
      (confidenceFromSampleSize 0 20 = 0 ∧
        (∀ m n : ℕ, m ≤ n →
            confidenceFromSampleSize m 20 ≤ confidenceFromSampleSize n 20) ∧
        (∀ n : ℕ, 0 ≤ confidenceFromSampleSize n 20 ∧
            confidenceFromSampleSize n 20 ≤ 1) ∧
        (∀ n : ℕ, 2 * n = 20 → confidenceFromSampleSize n 20 = 1 / 2)) :=
  ⟨by norm_num, C4_confidence_properties 20 (by norm_num)⟩

/-! Projection helpers for `analyze_sql_structure`. -/

theorem analyze_complexity_eq (q : String) :
    (analyze_sql_structure q).complexity_score =
      (scanCount joinMatchLen (q.data.map Char.toUpper) : ℚ) * 2 +
      (maxNestingAux (q.data.map Char.toUpper) 0 0 : ℚ) * 3 +
      (scanCount cteMatchLen (q.data.map Char.toUpper) : ℚ) * 4 +
      (scanCount aggMatchLen (q.data.map Char.toUpper) : ℚ) * (3 / 2) +
      (scanCount overMatchLen (q.data.map Char.toUpper) : ℚ) * 5 := rfl

theorem analyze_category_eq (q : String) :
    (analyze_sql_structure q).category =
      (if (analyze_sql_structure q).complexity_score ≥ 20 then "expert"
       else if (analyze_sql_structure q).complexity_score ≥ 10 then "advanced"
       else if (analyze_sql_structure q).complexity_score ≥ 5 then "intermediate"
       else "basic") := rfl

theorem analyze_join_eq (q : String) :
    (analyze_sql_structure q).join_depth =
      scanCount joinMatchLen (q.data.map Char.toUpper) := rfl

theorem analyze_nesting_eq (q : String) :
    (analyze_sql_structure q).nesting_level =
      maxNestingAux (q.data.map Char.toUpper) 0 0 := rfl

theorem analyze_cte_eq (q : String) :
    (analyze_sql_structure q).cte_count =
      scanCount cteMatchLen (q.data.map Char.toUpper) := rfl

theorem analyze_agg_eq (q : String) :
    (analyze_sql_structure q).aggregations =
      scanCount aggMatchLen (q.data.map Char.toUpper) := rfl

theorem analyze_window_eq (q : String) :
    (analyze_sql_structure q).window_functions =
      scanCount overMatchLen (q.data.map Char.toUpper) := rfl

/-- `analyze("SELECT 1")` has complexity score `0`. -/
theorem select1_score : (analyze_sql_structure "SELECT 1").complexity_score = 0 := by
  rw [analyze_complexity_eq]
  rw [show scanCount joinMatchLen ((String.data "SELECT 1").map Char.toUpper) = 0 from
    by decide]
  rw [show maxNestingAux ((String.data "SELECT 1").map Char.toUpper) 0 0 = 0 from
    by decide]
  rw [show scanCount cteMatchLen ((String.data "SELECT 1").map Char.toUpper) = 0 from
    by decide]
  rw [show scanCount aggMatchLen ((String.data "SELECT 1").map Char.toUpper) = 0 from
    by decide]
  rw [show scanCount overMatchLen ((String.data "SELECT 1").map Char.toUpper) = 0 from
    by decide]
  norm_num

/-- A two-JOIN query: complexity score `4`, purely from the joins. -/
theorem twoJoins_score :
    (analyze_sql_structure "SELECT * FROM A JOIN B ON X JOIN C ON Y").complexity_score
      = 4 := by
  rw [analyze_complexity_eq]
  rw [show scanCount joinMatchLen
    ((String.data "SELECT * FROM A JOIN B ON X JOIN C ON Y").map Char.toUpper) = 2 from
    by decide]
  rw [show maxNestingAux
    ((String.data "SELECT * FROM A JOIN B ON X JOIN C ON Y").map Char.toUpper) 0 0 = 0 from
    by decide]
  rw [show scanCount cteMatchLen
    ((String.data "SELECT * FROM A JOIN B ON X JOIN C ON Y").map Char.toUpper) = 0 from
    by decide]
  rw [show scanCount aggMatchLen
    ((String.data "SELECT * FROM A JOIN B ON X JOIN C ON Y").map Char.toUpper) = 0 from
    by decide]
  rw [show scanCount overMatchLen
    ((String.data "SELECT * FROM A JOIN B ON X JOIN C ON Y").map Char.toUpper) = 0 from
    by decide]
  norm_num

/-- C5.  For every query string the complexity score is the documented
weighted sum `2·joins + 3·nesting + 4·ctes + 1.5·aggregations + 5·windows`,
the category follows the documented thresholds, `analyze("SELECT 1")` scores
`0`/basic, and the two-JOIN query gets `join_depth = 2` and score `4`. -/
theorem C5_sql_structure (q : String) :
    ((analyze_sql_structure q).complexity_score =
      2 * ((analyze_sql_structure q).join_depth : ℚ) +
      3 * ((analyze_sql_structure q).nesting_level : ℚ) +
      4 * ((analyze_sql_structure q).cte_count : ℚ) +
      (3 / 2) * ((analyze_sql_structure q).aggregations : ℚ) +
      5 * ((analyze_sql_structure q).window_functions : ℚ)) ∧
    ((analyze_sql_structure q).complexity_score < 5 →
        (analyze_sql_structure q).category = "basic") ∧
    (5 ≤ (analyze_sql_structure q).complexity_score →
        (analyze_sql_structure q).complexity_score < 10 →
        (analyze_sql_structure q).category = "intermediate") ∧
    (10 ≤ (analyze_sql_structure q).complexity_score →
        (analyze_sql_structure q).complexity_score < 20 →
        (analyze_sql_structure q).category = "advanced") ∧
    (20 ≤ (analyze_sql_structure q).complexity_score →
        (analyze_sql_structure q).category = "expert") ∧
    ((analyze_sql_structure "SELECT 1").complexity_score = 0 ∧
      (analyze_sql_structure "SELECT 1").category = "basic") ∧
    ((analyze_sql_structure "SELECT * FROM A JOIN B ON X JOIN C ON Y").join_depth = 2 ∧
      (analyze_sql_structure "SELECT * FROM A JOIN B ON X JOIN C ON Y").complexity_score
        = 4) := by
  refine ⟨?_, ?_, ?_, ?_, ?_, ⟨select1_score, ?_⟩, ⟨?_, twoJoins_score⟩⟩
  · rw [analyze_complexity_eq, analyze_join_eq, analyze_nesting_eq, analyze_cte_eq,
      analyze_agg_eq, analyze_window_eq]
    ring
  · intro h
    rw [analyze_category_eq, if_neg (by simp only [ge_iff_le, not_le]; linarith),
      if_neg (by simp only [ge_iff_le, not_le]; linarith),
      if_neg (by simp only [ge_iff_le, not_le]; linarith)]
  · intro h1 h2
    rw [analyze_category_eq, if_neg (by simp only [ge_iff_le, not_le]; linarith),
      if_neg (by simp only [ge_iff_le, not_le]; linarith),
      if_pos (by simpa [ge_iff_le] using h1)]
  · intro h1 h2
    rw [analyze_category_eq, if_neg (by simp only [ge_iff_le, not_le]; linarith),
      if_pos (by simpa [ge_iff_le] using h1)]
  · intro h
    rw [analyze_category_eq, if_pos (by simpa [ge_iff_le] using h)]
  · rw [analyze_category_eq, select1_score]
    norm_num
  · rw [analyze_join_eq]
    decide

/-- Witness for C5: the threshold implications instantiated at
`"SELECT 1"` (score `0 < 5`, category basic). -/
theorem C5_sql_structure_witness :
    (analyze_sql_structure "SELECT 1").complexity_score < 5 ∧
      (analyze_sql_structure "SELECT 1").category = "basic" :=
  ⟨by rw [select1_score]; norm_num,
    (C5_sql_structure "SELECT 1").2.1 (by rw [select1_score]; norm_num)⟩

/-- Counterexample to C3: iteration events at t=0s, 5s, 12s.  Under the
claim's rule (compare with the previously KEPT timestamp) t=12s would be kept
(Δ=12s from the kept t=0) giving 2 meaningful iterations, but the code
compares with the immediately preceding raw event (t=5s, Δ=7s ≤ 10s) and
keeps only 1. -/
theorem C3_counterexample :
    (calculate_iteration_quality
        [⟨some "QUERY_MODIFIED", some 0, none⟩,
         ⟨some "QUERY_MODIFIED", some 5, none⟩,
         ⟨some "QUERY_MODIFIED", some 12, none⟩]).sample_size = 1 ∧
      (claimKeptIterations
        [⟨some "QUERY_MODIFIED", some 0, none⟩,
         ⟨some "QUERY_MODIFIED", some 5, none⟩,
         ⟨some "QUERY_MODIFIED", some 12, none⟩]).length = 2 := by
  constructor
  · simp only [calculate_iteration_quality]
    decide
  · decide

/-- The loop body agrees with the declarative previous-raw-gap rule once a
previous timestamp exists and all timestamps are present. -/
theorem meaningfulAux_eq_prevGapAux (l : List Event) :
    ∀ (p : Event) (t : ℕ), p.timestamp = some t →
      (∀ e ∈ l, e.timestamp.isSome) → meaningfulAux l (some t) = prevGapAux p l := by
  induction l with
  | nil => intro p t hp h; rfl
  | cons e rest ih =>
    intro p t hp h
    obtain ⟨te, hte⟩ := Option.isSome_iff_exists.mp (h e (List.mem_cons_self e rest))
    have hrest : ∀ x ∈ rest, x.timestamp.isSome :=
      fun x hx => h x (List.mem_cons_of_mem e hx)
    simp only [meaningfulAux, prevGapAux, hte, hp, Option.getD_some]
    by_cases hgt : ((te : ℤ) - (t : ℤ)) > 10
    · rw [if_pos hgt, if_pos hgt]
      rw [ih e te hte hrest]
    · rw [if_neg hgt, if_neg hgt]
      rw [ih e te hte hrest]

/-- C3 amended.  In `calculate_iteration_quality` the first iteration event is
always counted, and a later event is dropped iff its timestamp is at most 10
seconds after the IMMEDIATELY PRECEDING iteration event's timestamp (kept or
dropped — `last_time` is updated on every event); the concrete example
t=0s, 5s, 20s still yields 2 meaningful iterations out of 3 raw events. -/
theorem C3_amended :
    (∀ l : List Event, (∀ e ∈ l, e.timestamp.isSome) →
        meaningfulIterations l = prevGapFilter l) ∧
      (calculate_iteration_quality
        [⟨some "QUERY_MODIFIED", some 0, none⟩,
         ⟨some "QUERY_MODIFIED", some 5, none⟩,
         ⟨some "QUERY_MODIFIED", some 20, none⟩]).sample_size = 2 := by
  constructor
  · intro l h
    cases l with
    | nil => rfl
    | cons e rest =>
      obtain ⟨te, hte⟩ := Option.isSome_iff_exists.mp (h e (List.mem_cons_self e rest))
      have hrest : ∀ x ∈ rest, x.timestamp.isSome :=
        fun x hx => h x (List.mem_cons_of_mem e hx)
      simp only [meaningfulIterations, meaningfulAux, prevGapFilter, hte]
      rw [meaningfulAux_eq_prevGapAux rest e te hte hrest]
  · simp only [calculate_iteration_quality]
    decide

/-- Witness for C3 amended: the filter equality instantiated on the
t=0s/5s/20s stream. -/
theorem C3_amended_witness :
    (∀ e ∈ [(⟨some "QUERY_MODIFIED", some 0, none⟩ : Event),
        ⟨some "QUERY_MODIFIED", some 5, none⟩,
        ⟨some "QUERY_MODIFIED", some 20, none⟩], e.timestamp.isSome) ∧
      meaningfulIterations
        [⟨some "QUERY_MODIFIED", some 0, none⟩,
         ⟨some "QUERY_MODIFIED", some 5, none⟩,
         ⟨some "QUERY_MODIFIED", some 20, none⟩] =
        prevGapFilter
          [⟨some "QUERY_MODIFIED", some 0, none⟩,
           ⟨some "QUERY_MODIFIED", some 5, none⟩,
           ⟨some "QUERY_MODIFIED", some 20, none⟩] :=
  ⟨by decide, C3_amended.1 _ (by decide)⟩

/-- The resolution search (`any`) succeeds iff some resolution event carries a
timestamp strictly inside the open window `(t, t + 300s)`, provided all
resolution events are timestamped. -/
theorem resolvedWithin_iff (resolutions : List Event) (t : ℕ)
    (h : ∀ r ∈ resolutions, r.timestamp.isSome) :
    resolvedWithin resolutions t = true ↔
      ∃ r ∈ resolutions, ∃ rt : ℕ, r.timestamp = some rt ∧ t < rt ∧ rt < t + 300 := by
  unfold resolvedWithin
  rw [List.any_eq_true]
  constructor
  · rintro ⟨r, hr, hcond⟩
    obtain ⟨rt, hrt⟩ := Option.isSome_iff_exists.mp (h r hr)
    rw [hrt] at hcond
    simp only [Option.getD_some, Bool.and_eq_true, decide_eq_true_eq] at hcond
    exact ⟨r, hr, rt, hrt, hcond.1, hcond.2⟩
  · rintro ⟨r, hr, rt, hrt, h1, h2⟩
    refine ⟨r, hr, ?_⟩
    rw [hrt]
    simp only [Option.getD_some, Bool.and_eq_true, decide_eq_true_eq]
    exact ⟨h1, h2⟩

/-- C6.  With at least one error, an error counts as resolved iff some
`ERROR_RESOLVED` event's timestamp lies strictly inside
`(error_time, error_time + 5 min)`; the value is `resolved/errors` (resolution
events are never consumed, so one resolution can satisfy several errors, and
the 4-minute resolution is matched, the 6-minute one is not). -/
theorem C6_debug_resolution (events : List Event)
    (hts : ∀ e ∈ events, e.timestamp.isSome)
    (herr : events.filter (fun e => e.type == some "ERROR_OCCURRED") ≠ []) :
    ((calculate_debug_effectiveness events).value =
      (((events.filter (fun e => e.type == some "ERROR_OCCURRED")).countP
          (fun err => resolvedWithin
            (events.filter (fun e => e.type == some "ERROR_RESOLVED"))
            (err.timestamp.getD 0)) : ℕ) : ℝ) /
        (((events.filter (fun e => e.type == some "ERROR_OCCURRED")).length : ℕ) : ℝ)) ∧
    (∀ t : ℕ,
        resolvedWithin (events.filter (fun e => e.type == some "ERROR_RESOLVED")) t
            = true ↔
          ∃ r ∈ events.filter (fun e => e.type == some "ERROR_RESOLVED"),
            ∃ rt : ℕ, r.timestamp = some rt ∧ t < rt ∧ rt < t + 300) ∧
    ((calculate_debug_effectiveness
        [⟨some "ERROR_OCCURRED", some 0, none⟩,
         ⟨some "ERROR_RESOLVED", some 240, none⟩]).value = 1) ∧
    ((calculate_debug_effectiveness
        [⟨some "ERROR_OCCURRED", some 0, none⟩,
         ⟨some "ERROR_RESOLVED", some 360, none⟩]).value = 0) ∧
    ((calculate_debug_effectiveness
        [⟨some "ERROR_OCCURRED", some 0, none⟩,
         ⟨some "ERROR_OCCURRED", some 10, none⟩,
         ⟨some "ERROR_RESOLVED", some 120, none⟩]).value = 1) := by
  refine ⟨?_, ?_, ?_, ?_, ?_⟩
  · simp only [calculate_debug_effectiveness]
    rw [if_neg herr]
  · intro t
    exact resolvedWithin_iff _ t
      (fun r hr => hts r (List.mem_filter.mp hr).1)
  · have h : (calculate_debug_effectiveness
        [⟨some "ERROR_OCCURRED", some 0, none⟩,
         ⟨some "ERROR_RESOLVED", some 240, none⟩]).value =
        ((1 : ℕ) : ℝ) / ((1 : ℕ) : ℝ) := rfl
    rw [h]
    norm_num
  · have h : (calculate_debug_effectiveness
        [⟨some "ERROR_OCCURRED", some 0, none⟩,
         ⟨some "ERROR_RESOLVED", some 360, none⟩]).value =
        ((0 : ℕ) : ℝ) / ((1 : ℕ) : ℝ) := rfl
    rw [h]
    norm_num
  · have h : (calculate_debug_effectiveness
        [⟨some "ERROR_OCCURRED", some 0, none⟩,
         ⟨some "ERROR_OCCURRED", some 10, none⟩,
         ⟨some "ERROR_RESOLVED", some 120, none⟩]).value =
        ((2 : ℕ) : ℝ) / ((2 : ℕ) : ℝ) := rfl
    rw [h]
    norm_num

/-- Witness for C6: the resolved-iff characterisation instantiated on the
stream `[ERROR_OCCURRED@0, ERROR_RESOLVED@240]`. -/
theorem C6_debug_resolution_witness :
    (∀ e ∈ [(⟨some "ERROR_OCCURRED", some 0, none⟩ : Event),
        ⟨some "ERROR_RESOLVED", some 240, none⟩], e.timestamp.isSome) ∧
      ((calculate_debug_effectiveness
          [⟨some "ERROR_OCCURRED", some 0, none⟩,
           ⟨some "ERROR_RESOLVED", some 240, none⟩]).value = 1) :=
  ⟨by decide,
    (C6_debug_resolution
      [⟨some "ERROR_OCCURRED", some 0, none⟩,
       ⟨some "ERROR_RESOLVED", some 240, none⟩]
      (by decide) (by decide)).2.2.1⟩

/-- Counterexample to C2: one `AI_RESPONSE_USED` event with two
`AI_CODE_MODIFIED` events gives `modification_rate = 2` and an
ai_collaboration value of `2`, above the claimed cap of `1.0` (the code never
caps this calculator). -/
theorem C2_counterexample :
    (calculate_ai_collaboration_quality
        [⟨some "AI_RESPONSE_USED", some 0, none⟩,
         ⟨some "AI_CODE_MODIFIED", some 1, none⟩,
         ⟨some "AI_CODE_MODIFIED", some 2, none⟩]).value > 1 := by
  have h : (calculate_ai_collaboration_quality
      [⟨some "AI_RESPONSE_USED", some 0, none⟩,
       ⟨some "AI_CODE_MODIFIED", some 1, none⟩,
       ⟨some "AI_CODE_MODIFIED", some 2, none⟩]).value =
      max 0 (((2 : ℕ) : ℝ) / ((1 : ℕ) : ℝ) -
        ((0 : ℕ) : ℝ) / ((1 : ℕ) : ℝ) * 0.5) := rfl
  rw [h, show ((2 : ℕ) : ℝ) / ((1 : ℕ) : ℝ) -
      ((0 : ℕ) : ℝ) / ((1 : ℕ) : ℝ) * 0.5 = 2 by norm_num,
    max_eq_right (by norm_num : (0:ℝ) ≤ 2)]
  norm_num

/-- C2 amended.  For every input and positive problem difficulty, the caps
hold for five calculators — exploration ≤ 2, iteration ≤ 2, debugging ≤ 1,
ai_reliance ≤ 1, sql_complexity ≤ 4 — and every sample size is ≥ 0; the
ai_collaboration value is only bounded below by 0 (it has no upper cap, see
the counterexample). -/
theorem C2_amended (events : List Event) (inters : List AIInteraction)
    (queries : List String) (d : ℝ) (_hd : 0 < d) :
    (calculate_exploration_score events d).value ≤ 2 ∧
    (calculate_iteration_quality events).value ≤ 2 ∧
    (calculate_debug_effectiveness events).value ≤ 1 ∧
    (calculate_ai_reliance inters).value ≤ 1 ∧
    0 ≤ (calculate_ai_collaboration_quality events).value ∧
    (calculate_sql_complexity queries).value ≤ 4 ∧
    0 ≤ (calculate_exploration_score events d).sample_size ∧
    0 ≤ (calculate_iteration_quality events).sample_size ∧
    0 ≤ (calculate_debug_effectiveness events).sample_size ∧
    0 ≤ (calculate_ai_reliance inters).sample_size ∧
    0 ≤ (calculate_ai_collaboration_quality events).sample_size ∧
    0 ≤ (calculate_sql_complexity queries).sample_size := by
  refine ⟨?_, ?_, ?_, ?_, ?_, ?_,
    Nat.zero_le _, Nat.zero_le _, Nat.zero_le _, Nat.zero_le _, Nat.zero_le _,
    Nat.zero_le _⟩
  · simp only [calculate_exploration_score]
    split
    · norm_num
    · exact min_le_right _ _
  · simp only [calculate_iteration_quality]
    exact min_le_right _ _
  · simp only [calculate_debug_effectiveness]
    split
    · norm_num
    · rename_i h
      have hlen : 0 < (events.filter
          (fun e => e.type == some "ERROR_OCCURRED")).length :=
        List.length_pos.mpr h
      have hcast : (0:ℝ) < ((events.filter
          (fun e => e.type == some "ERROR_OCCURRED")).length : ℝ) := by
        exact_mod_cast hlen
      show (_ : ℝ) / _ ≤ 1
      rw [div_le_one hcast]
      exact_mod_cast List.countP_le_length _
  · simp only [calculate_ai_reliance]
    split
    · norm_num
    · rename_i h
      have hlen : 0 < inters.length := List.length_pos.mpr h
      have hcast : (0:ℝ) < (inters.length : ℝ) := by exact_mod_cast hlen
      have hp := classifyCount_partition inters
      have hpR : (classifyCount inters .hint_request : ℝ) +
          (classifyCount inters .debug_assistance : ℝ) +
          (classifyCount inters .explanation : ℝ) +
          (classifyCount inters .code_generation : ℝ) +
          (classifyCount inters .validation : ℝ) +
          (classifyCount inters .conceptual_help : ℝ) = (inters.length : ℝ) := by
        exact_mod_cast hp
      have n1 : (0:ℝ) ≤ (classifyCount inters .hint_request : ℝ) := Nat.cast_nonneg _
      have n2 : (0:ℝ) ≤ (classifyCount inters .debug_assistance : ℝ) := Nat.cast_nonneg _
      have n3 : (0:ℝ) ≤ (classifyCount inters .explanation : ℝ) := Nat.cast_nonneg _
      have n4 : (0:ℝ) ≤ (classifyCount inters .code_generation : ℝ) := Nat.cast_nonneg _
      have n5 : (0:ℝ) ≤ (classifyCount inters .validation : ℝ) := Nat.cast_nonneg _
      have n6 : (0:ℝ) ≤ (classifyCount inters .conceptual_help : ℝ) := Nat.cast_nonneg _
      show (_ : ℝ) / _ ≤ 1
      rw [div_le_one hcast]
      linarith
  · simp only [calculate_ai_collaboration_quality]
    split
    · norm_num
    · exact le_max_left _ _
  · simp only [calculate_sql_complexity]
    split
    · norm_num
    · show ((min 4 _ : ℚ) : ℝ) ≤ 4
      exact_mod_cast min_le_left (4:ℚ) _

/-- Witness for C2 amended: all the bounds at the empty inputs with problem
difficulty 1. -/
theorem C2_amended_witness :
    (0:ℝ) < 1 ∧
      ((calculate_exploration_score [] 1).value ≤ 2 ∧
        (calculate_iteration_quality []).value ≤ 2 ∧
        (calculate_debug_effectiveness []).value ≤ 1 ∧
        (calculate_ai_reliance []).value ≤ 1 ∧
        0 ≤ (calculate_ai_collaboration_quality []).value ∧
        (calculate_sql_complexity []).value ≤ 4 ∧
        0 ≤ (calculate_exploration_score [] 1).sample_size ∧
        0 ≤ (calculate_iteration_quality []).sample_size ∧
        0 ≤ (calculate_debug_effectiveness []).sample_size ∧
        0 ≤ (calculate_ai_reliance []).sample_size ∧
        0 ≤ (calculate_ai_collaboration_quality []).sample_size ∧
        0 ≤ (calculate_sql_complexity []).sample_size) :=
  ⟨by norm_num, C2_amended [] [] [] 1 (by norm_num)⟩

/-- One step of the dependency-loop scan. -/
theorem aiLoops_cons (e : Event) (l : List Event) :
    (aiLoops (e :: l)).length =
      (if tripleAt (e :: l) 0 = true then 1 else 0) + (aiLoops l).length := by
  match l with
  | [] =>
    have ht : tripleAt [e] 0 =
        (e.type == some "ERROR_OCCURRED" && false && false) := rfl
    rw [ht]
    simp [aiLoops]
  | [e2] =>
    have ht : tripleAt [e, e2] 0 =
        (e.type == some "ERROR_OCCURRED" && e2.type == some "AI_PROMPT" && false) := rfl
    rw [ht]
    simp [aiLoops]
  | e2 :: e3 :: rest =>
    have ht : tripleAt (e :: e2 :: e3 :: rest) 0 =
        (e.type == some "ERROR_OCCURRED" && e2.type == some "AI_PROMPT" &&
          e3.type == some "ERROR_OCCURRED") := rfl
    rw [ht]
    simp only [aiLoops]
    split_ifs with h
    · simp only [List.length_append, List.length_cons, List.length_nil]
    · simp only [List.nil_append]
      omega

/-- The dependency-loop scan emits exactly one pair per index satisfying the
triple guard. -/
theorem aiLoops_length (evs : List Event) :
    (aiLoops evs).length = (List.range evs.length).countP (fun i => tripleAt evs i) := by
  induction evs with
  | nil => rfl
  | cons e l ih =>
    rw [aiLoops_cons, List.length_cons, List.range_succ_eq_map, List.countP_cons,
      List.countP_map]
    have hcfun : ((fun i => tripleAt (e :: l) i) ∘ Nat.succ) = fun i => tripleAt l i :=
      funext fun i => rfl
    rw [hcfun, ih]
    omega

/-- Loop records never pass the data-driven filter. -/
theorem filter_dd_map_loops (l : List (Event × Event)) :
    (l.map mkLoopPattern).filter
      (fun p => p.pattern_type == "data_driven_approach") = [] := by
  induction l with
  | nil => rfl
  | cons a t ih =>
    simp only [List.map_cons, List.filter_cons]
    rw [show ((mkLoopPattern a).pattern_type == "data_driven_approach") = false from rfl]
    simpa using ih

/-- Loop records all pass the loop filter. -/
theorem filter_loop_map_loops (l : List (Event × Event)) :
    (l.map mkLoopPattern).filter
      (fun p => p.pattern_type == "ai_dependency_loop") = l.map mkLoopPattern := by
  induction l with
  | nil => rfl
  | cons a t ih =>
    simp only [List.map_cons, List.filter_cons]
    rw [show ((mkLoopPattern a).pattern_type == "ai_dependency_loop") = true from rfl]
    simpa using ih

/-- A nonempty pair list is equivalent to the existence of an explore-type
event followed by a `SQL_RUN` within the next five events. -/
theorem exploreSqlPairs_ne_nil_iff (evs : List Event) :
    exploreSqlPairs evs ≠ [] ↔
      ∃ (i : ℕ) (e : Event) (rest : List Event), evs.drop i = e :: rest ∧
        typeIs e detectorExploreTypes = true ∧
        (rest.take 5).any (fun x => x.type == some "SQL_RUN") = true := by
  induction evs with
  | nil =>
    constructor
    · intro h
      exact absurd rfl h
    · rintro ⟨i, e, rest, hdrop, -, -⟩
      simp at hdrop
  | cons a l ih =>
    constructor
    · intro h
      cases hty : typeIs a detectorExploreTypes with
      | false =>
        have hh : exploreSqlPairs (a :: l) = exploreSqlPairs l := by
          simp [exploreSqlPairs, hty]
        rw [hh] at h
        obtain ⟨i, e, rest, hdrop, h1, h2⟩ := ih.mp h
        exact ⟨i + 1, e, rest, by simpa using hdrop, h1, h2⟩
      | true =>
        cases hf : (l.take 5).find? (fun x => x.type == some "SQL_RUN") with
        | some s =>
          have hmem : s ∈ l.take 5 := List.mem_of_find?_eq_some hf
          have hps := List.find?_some hf
          exact ⟨0, a, l, rfl, hty,
            List.any_eq_true.mpr ⟨s, hmem, by simpa using hps⟩⟩
        | none =>
          have hh : exploreSqlPairs (a :: l) = exploreSqlPairs l := by
            simp [exploreSqlPairs, hty, hf]
          rw [hh] at h
          obtain ⟨i, e, rest, hdrop, h1, h2⟩ := ih.mp h
          exact ⟨i + 1, e, rest, by simpa using hdrop, h1, h2⟩
    · rintro ⟨i, e, rest, hdrop, h1, h2⟩
      cases i with
      | zero =>
        simp only [List.drop_zero] at hdrop
        obtain ⟨rfl, rfl⟩ := (List.cons.injEq a l e rest).mp hdrop
        obtain ⟨x, hx, hpx⟩ := List.any_eq_true.mp h2
        cases hs : (l.take 5).find? (fun x => x.type == some "SQL_RUN") with
        | none => exact absurd hpx (List.find?_eq_none.mp hs x hx)
        | some s =>
          have hh : exploreSqlPairs (a :: l) = (a, s) :: exploreSqlPairs l := by
            simp [exploreSqlPairs, h1, hs]
          rw [hh]
          exact List.cons_ne_nil _ _
      | succ j =>
        have htail : exploreSqlPairs l ≠ [] :=
          ih.mpr ⟨j, e, rest, by simpa using hdrop, h1, h2⟩
        intro hc
        simp only [exploreSqlPairs] at hc
        rw [List.append_eq_nil] at hc
        exact htail hc.2

/-- C8.  The detector emits at most ONE `data_driven_approach` record — one
summary record (quality 1.0, spanning first pair's explore timestamp to last
pair's SQL timestamp) exactly when some explore event is followed by a
`SQL_RUN` within the next 5 events — and one `ai_dependency_loop` record
(quality 0.2) per index whose three consecutive events are
error→AI-prompt→error; the two concrete example streams yield exactly one
pattern each. -/
theorem C8_sequence_detector (evs : List Event) :
    (((detect_thinking_sequences evs).filter
        (fun p => p.pattern_type == "data_driven_approach")).length ≤ 1) ∧
    ((((detect_thinking_sequences evs).filter
        (fun p => p.pattern_type == "data_driven_approach")).length = 1) ↔
      exploreSqlPairs evs ≠ []) ∧
    (exploreSqlPairs evs ≠ [] ↔
      ∃ (i : ℕ) (e : Event) (rest : List Event), evs.drop i = e :: rest ∧
        typeIs e detectorExploreTypes = true ∧
        (rest.take 5).any (fun x => x.type == some "SQL_RUN") = true) ∧
    (((detect_thinking_sequences evs).filter
        (fun p => p.pattern_type == "ai_dependency_loop")).length =
      (List.range evs.length).countP (fun i => tripleAt evs i)) ∧
    (∀ p ∈ detect_thinking_sequences evs,
        (p.pattern_type = "data_driven_approach" → p.quality_score = 1) ∧
        (p.pattern_type = "ai_dependency_loop" → p.quality_score = 1 / 5)) ∧
    (∀ (pr : Event × Event) (prs : List (Event × Event)),
        exploreSqlPairs evs = pr :: prs →
        (detect_thinking_sequences evs).filter
            (fun p => p.pattern_type == "data_driven_approach") =
          [⟨"data_driven_approach", ["EXPLORE", "SQL"],
            (pr.1.timestamp,
              ((pr :: prs).getLast (List.cons_ne_nil pr prs)).2.timestamp), 1⟩]) ∧
    (detect_thinking_sequences
        [⟨some "SCHEMA_EXPLORED", some 0, none⟩, ⟨some "OTHER", some 1, none⟩,
         ⟨some "OTHER", some 2, none⟩, ⟨some "OTHER", some 3, none⟩,
         ⟨some "OTHER", some 4, none⟩, ⟨some "SQL_RUN", some 5, none⟩] =
      [⟨"data_driven_approach", ["EXPLORE", "SQL"], (some 0, some 5), 1⟩]) ∧
    (detect_thinking_sequences
        [⟨some "ERROR_OCCURRED", some 0, none⟩, ⟨some "AI_PROMPT", some 1, none⟩,
         ⟨some "ERROR_OCCURRED", some 2, none⟩] =
      [⟨"ai_dependency_loop", ["ERROR", "AI", "ERROR"], (some 0, some 2), 1 / 5⟩]) := by
  have hddnil : exploreSqlPairs evs = [] →
      (detect_thinking_sequences evs).filter
        (fun p => p.pattern_type == "data_driven_approach") = [] := by
    intro hp
    simp only [detect_thinking_sequences, hp, List.nil_append]
    exact filter_dd_map_loops _
  have hspan : ∀ (pr : Event × Event) (prs : List (Event × Event)),
      exploreSqlPairs evs = pr :: prs →
      (detect_thinking_sequences evs).filter
          (fun p => p.pattern_type == "data_driven_approach") =
        [⟨"data_driven_approach", ["EXPLORE", "SQL"],
          (pr.1.timestamp,
            ((pr :: prs).getLast (List.cons_ne_nil pr prs)).2.timestamp), 1⟩] := by
    intro pr prs hp
    simp only [detect_thinking_sequences, hp, List.filter_append, filter_dd_map_loops,
      List.append_nil]
    exact rfl
  have hloopfilter : (detect_thinking_sequences evs).filter
      (fun p => p.pattern_type == "ai_dependency_loop") =
      (aiLoops evs).map mkLoopPattern := by
    cases hp : exploreSqlPairs evs with
    | nil =>
      simp only [detect_thinking_sequences, hp, List.nil_append]
      exact filter_loop_map_loops _
    | cons pr prs =>
      simp only [detect_thinking_sequences, hp, List.filter_append,
        filter_loop_map_loops]
      have h1 : ([(⟨"data_driven_approach", ["EXPLORE", "SQL"],
          (pr.1.timestamp,
            ((pr :: prs).getLast (List.cons_ne_nil pr prs)).2.timestamp),
          1⟩ : SequencePattern)]).filter
          (fun p => p.pattern_type == "ai_dependency_loop") = [] := rfl
      rw [h1, List.nil_append]
  refine ⟨?_, ?_, exploreSqlPairs_ne_nil_iff evs, ?_, ?_, hspan, ?_, ?_⟩
  · cases hp : exploreSqlPairs evs with
    | nil => rw [hddnil hp]; simp
    | cons pr prs => rw [hspan pr prs hp]; simp
  · cases hp : exploreSqlPairs evs with
    | nil =>
      rw [hddnil hp]
      simp [hp]
    | cons pr prs =>
      rw [hspan pr prs hp]
      simp [hp]
  · rw [hloopfilter, List.length_map, aiLoops_length]
  · intro p hp
    simp only [detect_thinking_sequences, List.mem_append] at hp
    rcases hp with hp | hp
    · cases hq : exploreSqlPairs evs with
      | nil =>
        rw [hq] at hp
        simp at hp
      | cons pr prs =>
        rw [hq] at hp
        simp only [List.mem_singleton] at hp
        subst hp
        refine ⟨fun _ => rfl, fun habs => ?_⟩
        have hc : ("data_driven_approach" : String) = "ai_dependency_loop" := habs
        exact absurd hc (by decide)
    · obtain ⟨pr, hmem, rfl⟩ := List.mem_map.mp hp
      refine ⟨fun habs => ?_, fun _ => rfl⟩
      have hc : ("ai_dependency_loop" : String) = "data_driven_approach" := habs
      exact absurd hc (by decide)
  · exact rfl
  · exact rfl

/-- Witness for C8: the spanning property instantiated on the six-event
example stream, whose single pair is explicit. -/
theorem C8_sequence_detector_witness :
    exploreSqlPairs
        [⟨some "SCHEMA_EXPLORED", some 0, none⟩, ⟨some "OTHER", some 1, none⟩,
         ⟨some "OTHER", some 2, none⟩, ⟨some "OTHER", some 3, none⟩,
         ⟨some "OTHER", some 4, none⟩, ⟨some "SQL_RUN", some 5, none⟩] =
      [((⟨some "SCHEMA_EXPLORED", some 0, none⟩ : Event),
        (⟨some "SQL_RUN", some 5, none⟩ : Event))] ∧
      (detect_thinking_sequences
          [⟨some "SCHEMA_EXPLORED", some 0, none⟩, ⟨some "OTHER", some 1, none⟩,
           ⟨some "OTHER", some 2, none⟩, ⟨some "OTHER", some 3, none⟩,
           ⟨some "OTHER", some 4, none⟩, ⟨some "SQL_RUN", some 5, none⟩]).filter
          (fun p => p.pattern_type == "data_driven_approach") =
        [⟨"data_driven_approach", ["EXPLORE", "SQL"], (some 0, some 5), 1⟩] :=
  ⟨rfl,
    (C8_sequence_detector
        [⟨some "SCHEMA_EXPLORED", some 0, none⟩, ⟨some "OTHER", some 1, none⟩,
         ⟨some "OTHER", some 2, none⟩, ⟨some "OTHER", some 3, none⟩,
         ⟨some "OTHER", some 4, none⟩,
         ⟨some "SQL_RUN", some 5, none⟩]).2.2.2.2.2.1
      ((⟨some "SCHEMA_EXPLORED", some 0, none⟩ : Event),
        (⟨some "SQL_RUN", some 5, none⟩ : Event)) [] rfl⟩

/-- The confidence the sigmoid assigns to a single effective SQL run with
`optimal_size = 10` (the iteration calculator's floor `max(runs, 1)` forces a
nonzero sample even on an empty stream). -/
theorem conf_one_ten :
    confidenceFromSampleSize 1 10 = 1 / (1 + Real.exp (12 / 5)) := by
  unfold confidenceFromSampleSize
  rw [if_neg (by norm_num)]
  have h : -(6 / ((10 : ℕ) : ℝ)) * (((1 : ℕ) : ℝ) - ((10 : ℕ) : ℝ) / 2) = 12 / 5 := by
    push_cast
    norm_num
  rw [h, min_one_logistic]

/-- Counterexample to C1: on the empty event and interaction lists,
`calculate_ai_reliance` returns confidence `1.0` — not `0.0` — so not every
calculator's zero-activity result has confidence 0.0 (and the overall
confidence cannot be 0.0 either). -/
theorem C1_counterexample :
    (calculate_all_metrics [] [] 1).ai_reliance.confidence ≠ 0 := by
  have h : (calculate_all_metrics [] [] 1).ai_reliance.confidence = 1 := by
    simp [calculate_all_metrics, sortEvents, calculate_ai_reliance]
  rw [h]
  norm_num

/-- C1 amended.  On empty inputs (any problem difficulty): exploration,
debugging, ai_collaboration and sql_complexity return their zero-activity
sentinels with confidence 0.0 and tags `no_sql_activity` /
`no_errors_encountered` / `no_ai_code_usage` / `no_queries`; ai_reliance
returns value 0.0 but confidence 1.0 with tag `no_ai_usage`; iteration has NO
zero-activity sentinel — it returns value 0.0, the sigmoid confidence
`1/(1+e^(12/5)) ≈ 0.083` (from the `max(sql_runs,1)` floor) and the ordinary
tag `one_shot_attempts`; consequently `overall_confidence =
(1 + 1/(1+e^(12/5)))/5 ≈ 0.217`, not 0.0. -/
theorem C1_amended (d : ℝ) :
    (calculate_all_metrics [] [] d).exploration = ⟨0, 0, 0, "no_sql_activity"⟩ ∧
    (calculate_all_metrics [] [] d).debugging = ⟨1, 0, 0, "no_errors_encountered"⟩ ∧
    (calculate_all_metrics [] [] d).ai_reliance = ⟨0, 1, 0, "no_ai_usage"⟩ ∧
    (calculate_all_metrics [] [] d).ai_collaboration = ⟨0, 0, 0, "no_ai_code_usage"⟩ ∧
    (calculate_all_metrics [] [] d).sql_complexity = ⟨0, 0, 0, "no_queries"⟩ ∧
    (calculate_all_metrics [] [] d).iteration.value = 0 ∧
    (calculate_all_metrics [] [] d).iteration.confidence =
      1 / (1 + Real.exp (12 / 5)) ∧
    (calculate_all_metrics [] [] d).iteration.sample_size = 0 ∧
    (calculate_all_metrics [] [] d).iteration.interpretation = "one_shot_attempts" ∧
    (calculate_all_metrics [] [] d).overall_confidence =
      (1 + 1 / (1 + Real.exp (12 / 5))) / 5 := by
  have hevs : sortEvents [] = [] := by simp [sortEvents]
  have hiter : (calculate_all_metrics [] [] d).iteration =
      calculate_iteration_quality [] := by
    simp only [calculate_all_metrics, hevs]
  have hiv : (calculate_iteration_quality ([] : List Event)).value = 0 := by
    have h : (calculate_iteration_quality ([] : List Event)).value =
        min (((0 : ℕ) : ℝ) / ((1 : ℕ) : ℝ)) 2 := rfl
    rw [h]
    norm_num
  have hic : (calculate_iteration_quality ([] : List Event)).confidence =
      confidenceFromSampleSize 1 10 := rfl
  have his : (calculate_iteration_quality ([] : List Event)).sample_size = 0 := rfl
  have hii : (calculate_iteration_quality ([] : List Event)).interpretation =
      "one_shot_attempts" := by
    have h : (calculate_iteration_quality ([] : List Event)).interpretation =
        (if (((0 : ℕ) : ℝ) / ((1 : ℕ) : ℝ)) > 0.35 then "iterative_refiner"
         else if (((0 : ℕ) : ℝ) / ((1 : ℕ) : ℝ)) > 0.1 then "some_iteration"
         else "one_shot_attempts") := rfl
    rw [h, if_neg (by norm_num), if_neg (by norm_num)]
  have hexp : (calculate_all_metrics [] [] d).exploration =
      ⟨0, 0, 0, "no_sql_activity"⟩ := by
    simp only [calculate_all_metrics, hevs]
    exact rfl
  have hdbg : (calculate_all_metrics [] [] d).debugging =
      ⟨1, 0, 0, "no_errors_encountered"⟩ := by
    simp only [calculate_all_metrics, hevs]
    exact rfl
  have hrel : (calculate_all_metrics [] [] d).ai_reliance =
      ⟨0, 1, 0, "no_ai_usage"⟩ := by
    simp only [calculate_all_metrics, hevs]
    exact rfl
  have hcol : (calculate_all_metrics [] [] d).ai_collaboration =
      ⟨0, 0, 0, "no_ai_code_usage"⟩ := by
    simp only [calculate_all_metrics, hevs]
    exact rfl
  have hsql : (calculate_all_metrics [] [] d).sql_complexity =
      ⟨0, 0, 0, "no_queries"⟩ := by
    simp only [calculate_all_metrics, hevs]
    exact rfl
  have hov : (calculate_all_metrics [] [] d).overall_confidence =
      ((calculate_exploration_score [] d).confidence +
        (calculate_iteration_quality []).confidence +
        (calculate_debug_effectiveness []).confidence +
        (calculate_ai_reliance []).confidence +
        (calculate_sql_complexity []).confidence) / 5 := by
    simp only [calculate_all_metrics, hevs, List.filterMap_nil]
  refine ⟨hexp, hdbg, hrel, hcol, hsql, ?_, ?_, ?_, ?_, ?_⟩
  · rw [hiter, hiv]
  · rw [hiter, hic, conf_one_ten]
  · rw [hiter, his]
  · rw [hiter, hii]
  · rw [hov]
    rw [show (calculate_exploration_score ([] : List Event) d).confidence = 0 from rfl]
    rw [hic, conf_one_ten]
    rw [show (calculate_debug_effectiveness ([] : List Event)).confidence = 0 from rfl]
    rw [show (calculate_ai_reliance ([] : List AIInteraction)).confidence = 1 from rfl]
    rw [show (calculate_sql_complexity ([] : List String)).confidence = 0 from rfl]
    ring

end AdvancedMetrics
